import Mathlib

/-!
Shallow embedding of the lightbox navigation component of the katgrapher
repository (dist/scripts/lightbox.js), together with theorems settling the
specification's claims about it.

Modelling conventions:
- the globals `window.lightboxPhotos` and `window.lightboxCurrentIndex` are
  fields of an explicit `LightboxState`; `none` models the JavaScript value
  `undefined`;
- a gallery photo item is modelled by whether it contains an `img` element,
  and an `img` element by its `data-lightbox-src`, `src`, `data-lightbox-caption`
  and `alt` strings (an absent attribute is the empty string, which coincides
  with JavaScript falsiness under the `||` fallbacks the code uses);
- JavaScript numbers holding indices and touch coordinates are modelled as
  `Int` (all operations performed on them are integer-exact);
- DOM side effects are modelled as state fields: the displayed image source,
  alt text and caption, the css classes of the overlay, the body scroll lock,
  the escape-key listener registration, the number of scheduled hide timers,
  the list of issued preload hrefs and the list of screen-reader
  announcements.  Effects the code performs inside short fade timers
  (10 ms / 150 ms) are modelled as their completed result.
-/

namespace Lightbox

/-- An `img` element inside a gallery photo item: its `data-lightbox-src`
and `data-lightbox-caption` data attributes (empty string when absent), its
`src` and its `alt` text. -/
structure Img where
  lightboxSrc : String
  src : String
  lightboxCaption : String
  alt : String
deriving DecidableEq

/-- A gallery photo item (`.photo-item` element): it may or may not contain
an `img` element. -/
structure Item where
  img : Option Img
deriving DecidableEq

/-- Item used as the out-of-bounds default when indexing; never reached
under the bounds checks the code performs. -/
def defaultItem : Item := { img := none }

/-- Effective image source: `img.dataset.lightboxSrc || img.src`. -/
def imgSrc (img : Img) : String :=
  if img.lightboxSrc = "" then img.src else img.lightboxSrc

/-- Effective caption: `img.dataset.lightboxCaption || img.alt || ''`. -/
def imgCaption (img : Img) : String :=
  if img.lightboxCaption = "" then img.alt else img.lightboxCaption

/-- The state of the lightbox component: the process-wide globals, the
overlay's css state, and the modelled DOM side effects. -/
structure LightboxState where
  photos : Option (List Item)
  currentIndex : Option Int
  hidden : Bool
  visible : Bool
  opacity100 : Bool
  displayedSrc : String
  displayedAlt : String
  displayedCaption : String
  focusTrapActive : Bool
  bodyOverflowHidden : Bool
  escListenerOn : Bool
  hideTimersScheduled : Nat
  lastFocusedPhoto : Bool
  preloadHints : List String
  announcements : List String
deriving DecidableEq

/-- The state at page load: both globals `undefined`, overlay hidden, no
listeners, timers or hints. -/
def initialState : LightboxState :=
  { photos := none
    currentIndex := none
    hidden := true
    visible := false
    opacity100 := false
    displayedSrc := ""
    displayedAlt := ""
    displayedCaption := ""
    focusTrapActive := false
    bodyOverflowHidden := false
    escListenerOn := false
    hideTimersScheduled := 0
    lastFocusedPhoto := false
    preloadHints := []
    announcements := [] }

/-- The candidate preload window computed by `preloadAdjacentImages`:
`[currentIndex - 1, currentIndex, currentIndex + 1, currentIndex + 2]`
filtered to `index >= 0 && index < photoItems.length && index !== currentIndex`. -/
def preloadIndices (currentIndex : Int) (photoItems : List Item) : List Int :=
  ([currentIndex - 1, currentIndex, currentIndex + 1, currentIndex + 2]).filter
    (fun index =>
      decide (0 ≤ index ∧ index < (photoItems.length : Int) ∧ index ≠ currentIndex))

/-- Whether a photo item contributes a preload hint: it must contain an
`img` element whose effective source is truthy (`if (src)`). -/
def itemHasPreloadableSrc (item : Item) : Bool :=
  match item.img with
  | none => false
  | some img => decide (imgSrc img ≠ "")

/-- The indices of the window that actually receive a preload hint: the
`forEach` body skips items without an `img` element and items whose
effective source is empty. -/
def preloadHintIndices (currentIndex : Int) (photoItems : List Item) : List Int :=
  (preloadIndices currentIndex photoItems).filter
    (fun index => itemHasPreloadableSrc (photoItems.getD index.toNat defaultItem))

/-- The hrefs of the preload `link` elements appended to the document head
by one call of `preloadAdjacentImages`. -/
def preloadHintSrcs (currentIndex : Int) (photoItems : List Item) : List String :=
  (preloadIndices currentIndex photoItems).filterMap
    (fun index =>
      match (photoItems.getD index.toNat defaultItem).img with
      | none => none
      | some img => if imgSrc img = "" then none else some (imgSrc img))

/-- The screen-reader announcement emitted by a successful navigation. -/
def announceMsg (index : Int) (total : Nat) (caption : String) : String :=
  "Image " ++ toString (index + 1) ++ " of " ++ toString total ++ ": " ++ caption

/-- Embedding of `navigateToIndex(index)`: no-op when `lightboxPhotos` is
`undefined` or `index` is outside `[0, photos.length)`, and no-op when the
target item has no `img` element; otherwise swaps the displayed image
(the 150 ms fade timer's completed effect), updates the caption, sets the
current index, issues the preload hints and announces to screen readers. -/
def navigateToIndex (index : Int) (s : LightboxState) : LightboxState :=
  match s.photos with
  | none => s
  | some photos =>
    if index < 0 ∨ (photos.length : Int) ≤ index then s
    else
      match (photos.getD index.toNat defaultItem).img with
      | none => s
      | some img =>
        let src := imgSrc img
        let caption := imgCaption img
        { s with
          displayedSrc := src
          displayedAlt := caption
          displayedCaption := caption
          currentIndex := some index
          preloadHints := s.preloadHints ++ preloadHintSrcs index photos
          announcements :=
            s.announcements ++ [announceMsg index photos.length caption] }

/-- Embedding of `navigatePrevious()`: reads the cursor as
`window.lightboxCurrentIndex || 0`, retreats by one with wraparound
`0 → length - 1`, and delegates to `navigateToIndex`. -/
def navigatePrevious (s : LightboxState) : LightboxState :=
  match s.photos with
  | none => s
  | some photos =>
    if photos.length = 0 then s
    else
      let currentIndex := s.currentIndex.getD 0
      let prevIndex :=
        if 0 < currentIndex then currentIndex - 1 else (photos.length : Int) - 1
      navigateToIndex prevIndex s

/-- Embedding of `navigateNext()`: reads the cursor as
`window.lightboxCurrentIndex || 0`, advances by one with wraparound
`length - 1 → 0`, and delegates to `navigateToIndex`. -/
def navigateNext (s : LightboxState) : LightboxState :=
  match s.photos with
  | none => s
  | some photos =>
    if photos.length = 0 then s
    else
      let currentIndex := s.currentIndex.getD 0
      let nextIndex :=
        if currentIndex < (photos.length : Int) - 1 then currentIndex + 1 else 0
      navigateToIndex nextIndex s

/-- Embedding of `openLightbox(src, caption, startIndex, photoItems)`:
sets the displayed image and caption, stores the item list and the start
index as the process-wide globals (with no bounds check on `startIndex`),
shows the overlay (the 10 ms opacity timer's completed effect), traps
focus, locks body scroll, registers the escape-key listener and preloads
around the start index.  The DOM elements are assumed present (the early
return when they are missing is not modelled). -/
def openLightbox (src caption : String) (startIndex : Int) (photoItems : List Item)
    (s : LightboxState) : LightboxState :=
  { s with
    displayedSrc := src
    displayedAlt := caption
    displayedCaption := caption
    photos := some photoItems
    currentIndex := some startIndex
    hidden := false
    visible := true
    opacity100 := true
    focusTrapActive := true
    bodyOverflowHidden := true
    escListenerOn := true
    preloadHints := s.preloadHints ++ preloadHintSrcs startIndex photoItems }

/-- Embedding of `closeLightbox()`: no-op unless the overlay has the
`visible` class; otherwise starts the fade-out, schedules the hide timer,
restores body scroll, removes the escape-key listener and returns focus to
the tracked photo (clearing the tracking).  The hide timer's later effect
(adding `hidden`, removing `visible`) is the scheduled timer, counted in
`hideTimersScheduled`. -/
def closeLightbox (s : LightboxState) : LightboxState :=
  if s.visible then
    { s with
      opacity100 := false
      hideTimersScheduled := s.hideTimersScheduled + 1
      bodyOverflowHidden := false
      escListenerOn := false
      lastFocusedPhoto := false }
  else s

/-- Embedding of `lightboxAPI.getCurrentIndex`:
`window.lightboxCurrentIndex || 0`. -/
def getCurrentIndex (s : LightboxState) : Int :=
  s.currentIndex.getD 0

/-- Embedding of `lightboxAPI.getTotalPhotos`. -/
def getTotalPhotos (s : LightboxState) : Nat :=
  match s.photos with
  | none => 0
  | some photos => photos.length

/-- Embedding of `lightboxAPI.isOpen`. -/
def isOpen (s : LightboxState) : Bool :=
  s.visible

/-- Key strings as delivered by `KeyboardEvent.key`. -/
def keyArrowLeft : String := "ArrowLeft"

/-- Key string for the right arrow key. -/
def keyArrowRight : String := "ArrowRight"

/-- Key string for the Home key. -/
def keyHome : String := "Home"

/-- Key string for the End key. -/
def keyEnd : String := "End"

/-- Key string for the Escape key. -/
def keyEscape : String := "Escape"

/-- Key string for a key the handler ignores. -/
def keyOther : String := "a"

/-- Embedding of `handleLightboxKeydown(e)`: returns unchanged when the
overlay is not visible, otherwise dispatches on `e.key`.  The `End` case
reads `window.lightboxPhotos.length`, which throws a TypeError when the
global is `undefined`; that exception is modelled as `none`.
`e.preventDefault()` is not modelled. -/
def handleLightboxKeydown (key : String) (s : LightboxState) : Option LightboxState :=
  if s.visible = false then some s
  else if key = "ArrowLeft" then some (navigatePrevious s)
  else if key = "ArrowRight" then some (navigateNext s)
  else if key = "Home" then some (navigateToIndex 0 s)
  else if key = "End" then
    match s.photos with
    | none => none
    | some photos => some (navigateToIndex ((photos.length : Int) - 1) s)
  else if key = "Escape" then some (closeLightbox s)
  else some s

/-- The two navigation operations a swipe can trigger. -/
inductive NavDirection where
  | previous : NavDirection
  | next : NavDirection
deriving DecidableEq

/-- Embedding of the `touchend` listener installed by `initTouchSupport`:
given the tracked start and current coordinates, decides which navigation
fires (at most one).  The listener returns early when `startX` or `startY`
is falsy (zero); otherwise it compares `deltaX = currentX - startX` and
`deltaY = currentY - startY` and treats a horizontal-dominant displacement
above 50 as a swipe: rightward drag triggers previous, leftward next. -/
def touchendNav (startX startY currentX currentY : Int) : Option NavDirection :=
  if startX = 0 ∨ startY = 0 then none
  else
    let deltaX := currentX - startX
    let deltaY := currentY - startY
    if |deltaY| < |deltaX| ∧ 50 < |deltaX| then
      if 0 < deltaX then some NavDirection.previous else some NavDirection.next
    else none

/-- The navigation-cursor invariant of the data model: the lightbox stores
an item list and a cursor lying inside `[0, length)`. -/
def cursorInBounds (s : LightboxState) : Bool :=
  match s.photos, s.currentIndex with
  | some photos, some index => decide (0 ≤ index ∧ index < (photos.length : Int))
  | _, _ => false

/-- A concrete image with a plain `src` and `alt` and no data attributes. -/
def imgA : Img := { lightboxSrc := "", src := "a.jpg", lightboxCaption := "", alt := "A" }

/-- A concrete image with full-resolution data attributes. -/
def imgB : Img :=
  { lightboxSrc := "b-full.jpg", src := "b.jpg", lightboxCaption := "photo B", alt := "B" }

/-- A photo item containing `imgA`. -/
def itemA : Item := { img := some imgA }

/-- A photo item containing `imgB`. -/
def itemB : Item := { img := some imgB }

/-- A photo item with no `img` element inside it. -/
def itemNoImg : Item := { img := none }

/-- Source string of `imgA`. -/
def srcA : String := "a.jpg"

/-- Caption string used when opening on `itemA`. -/
def captionA : String := "A"

/-- The state after opening the lightbox on a two-item gallery at index 0. -/
def openStateAB : LightboxState :=
  openLightbox srcA captionA 0 [itemA, itemB] initialState

/-- The state after opening on a gallery whose second item has no image. -/
def openStateANo : LightboxState :=
  openLightbox srcA captionA 0 [itemA, itemNoImg] initialState

/-- The state after opening with start index 5 on a two-item gallery:
`openLightbox` performs no bounds check on the start index. -/
def badOpenState : LightboxState :=
  openLightbox srcA captionA 5 [itemA, itemB] initialState

/-- When the photo list global is `undefined`, `navigateToIndex` is the
identity. -/
theorem navigateToIndex_no_photos (j : Int) (s : LightboxState)
    (h : s.photos = none) : navigateToIndex j s = s := by
  unfold navigateToIndex
  rw [h]

/-- When the index is out of bounds, `navigateToIndex` is the identity. -/
theorem navigateToIndex_out_of_bounds (j : Int) (s : LightboxState)
    (photos : List Item) (hp : s.photos = some photos)
    (hb : j < 0 ∨ (photos.length : Int) ≤ j) : navigateToIndex j s = s := by
  unfold navigateToIndex
  rw [hp]
  simp only
  rw [if_pos hb]

/-- When the target item has no image, `navigateToIndex` is the identity. -/
theorem navigateToIndex_no_img (j : Int) (s : LightboxState)
    (photos : List Item) (hp : s.photos = some photos)
    (hb : ¬(j < 0 ∨ (photos.length : Int) ≤ j))
    (hi : (photos.getD j.toNat defaultItem).img = none) : navigateToIndex j s = s := by
  unfold navigateToIndex
  rw [hp]
  simp only
  rw [if_neg hb]
  simp only [hi]

/-- The successful branch of `navigateToIndex`: in bounds and the target
item has an image. -/
theorem navigateToIndex_success (j : Int) (s : LightboxState)
    (photos : List Item) (img : Img) (hp : s.photos = some photos)
    (hb : ¬(j < 0 ∨ (photos.length : Int) ≤ j))
    (hi : (photos.getD j.toNat defaultItem).img = some img) :
    navigateToIndex j s =
      { s with
        displayedSrc := imgSrc img
        displayedAlt := imgCaption img
        displayedCaption := imgCaption img
        currentIndex := some j
        preloadHints := s.preloadHints ++ preloadHintSrcs j photos
        announcements :=
          s.announcements ++ [announceMsg j photos.length (imgCaption img)] } := by
  unfold navigateToIndex
  rw [hp]
  simp only
  rw [if_neg hb]
  simp only [hi]

/-- A `navigateToIndex` call either leaves the state unchanged or, when the
index is in bounds and the target item has an image, stores the index as
the cursor while keeping the same photo list. -/
theorem navigateToIndex_eq_or (j : Int) (s : LightboxState) :
    navigateToIndex j s = s ∨
      ∃ photos, s.photos = some photos ∧ 0 ≤ j ∧ j < (photos.length : Int) ∧
        (navigateToIndex j s).photos = some photos ∧
        (navigateToIndex j s).currentIndex = some j := by
  cases hp : s.photos with
  | none => exact Or.inl (navigateToIndex_no_photos j s hp)
  | some photos =>
    by_cases hb : j < 0 ∨ (photos.length : Int) ≤ j
    · exact Or.inl (navigateToIndex_out_of_bounds j s photos hp hb)
    · cases hi : (photos.getD j.toNat defaultItem).img with
      | none => exact Or.inl (navigateToIndex_no_img j s photos hp hb hi)
      | some img =>
        refine Or.inr ⟨photos, rfl, by omega, by omega, ?_, ?_⟩
        · rw [navigateToIndex_success j s photos img hp hb hi]
          exact hp
        · rw [navigateToIndex_success j s photos img hp hb hi]

/-- When the index is in bounds and the target item has an image,
`navigateToIndex` sets the cursor to that index. -/
theorem navigateToIndex_sets_cursor (j : Int) (s : LightboxState)
    (photos : List Item) (hp : s.photos = some photos)
    (h0 : 0 ≤ j) (hl : j < (photos.length : Int))
    (himg : ((photos.getD j.toNat defaultItem).img).isSome = true) :
    (navigateToIndex j s).currentIndex = some j := by
  cases hi : (photos.getD j.toNat defaultItem).img with
  | none => rw [hi] at himg; simp at himg
  | some img => rw [navigateToIndex_success j s photos img hp (by omega) hi]

/-- `navigateNext` is either the identity or a `navigateToIndex` call. -/
theorem navigateNext_eq (s : LightboxState) :
    navigateNext s = s ∨ ∃ t, navigateNext s = navigateToIndex t s := by
  unfold navigateNext
  cases s.photos with
  | none => exact Or.inl rfl
  | some photos =>
    simp only
    split
    · exact Or.inl rfl
    · exact Or.inr ⟨_, rfl⟩

/-- `navigatePrevious` is either the identity or a `navigateToIndex` call. -/
theorem navigatePrevious_eq (s : LightboxState) :
    navigatePrevious s = s ∨ ∃ t, navigatePrevious s = navigateToIndex t s := by
  unfold navigatePrevious
  cases s.photos with
  | none => exact Or.inl rfl
  | some photos =>
    simp only
    split
    · exact Or.inl rfl
    · exact Or.inr ⟨_, rfl⟩

/-- With a nonempty photo list and a defined cursor, `navigateNext`
delegates to `navigateToIndex` at the incremented (or wrapped) index. -/
theorem navigateNext_delegates (s : LightboxState) (photos : List Item) (i : Int)
    (hp : s.photos = some photos) (hci : s.currentIndex = some i)
    (hlen : photos.length ≠ 0) :
    navigateNext s =
      navigateToIndex (if i < (photos.length : Int) - 1 then i + 1 else 0) s := by
  unfold navigateNext
  rw [hp]
  simp only [hci, Option.getD_some]
  rw [if_neg hlen]

/-- With a nonempty photo list and a defined cursor, `navigatePrevious`
delegates to `navigateToIndex` at the decremented (or wrapped) index. -/
theorem navigatePrevious_delegates (s : LightboxState) (photos : List Item) (i : Int)
    (hp : s.photos = some photos) (hci : s.currentIndex = some i)
    (hlen : photos.length ≠ 0) :
    navigatePrevious s =
      navigateToIndex (if 0 < i then i - 1 else (photos.length : Int) - 1) s := by
  unfold navigatePrevious
  rw [hp]
  simp only [hci, Option.getD_some]
  rw [if_neg hlen]

/-- `navigateToIndex` preserves the cursor-bounds invariant. -/
theorem cursorInBounds_navigateToIndex (j : Int) (s : LightboxState)
    (h : cursorInBounds s = true) : cursorInBounds (navigateToIndex j s) = true := by
  rcases navigateToIndex_eq_or j s with heq | ⟨photos, _, h0, hl, hps, hci⟩
  · rwa [heq]
  · unfold cursorInBounds
    rw [hps, hci]
    simp only [decide_eq_true_eq]
    exact ⟨h0, hl⟩

/-- `navigateNext` preserves the cursor-bounds invariant. -/
theorem cursorInBounds_navigateNext (s : LightboxState)
    (h : cursorInBounds s = true) : cursorInBounds (navigateNext s) = true := by
  rcases navigateNext_eq s with heq | ⟨t, heq⟩
  · rwa [heq]
  · rw [heq]
    exact cursorInBounds_navigateToIndex t s h

/-- `navigatePrevious` preserves the cursor-bounds invariant. -/
theorem cursorInBounds_navigatePrevious (s : LightboxState)
    (h : cursorInBounds s = true) : cursorInBounds (navigatePrevious s) = true := by
  rcases navigatePrevious_eq s with heq | ⟨t, heq⟩
  · rwa [heq]
  · rw [heq]
    exact cursorInBounds_navigateToIndex t s h

/-- `openLightbox` stores the start index as the cursor unconditionally. -/
theorem openLightbox_cursor (src caption : String) (startIndex : Int)
    (photoItems : List Item) (s : LightboxState) :
    (openLightbox src caption startIndex photoItems s).photos = some photoItems ∧
      (openLightbox src caption startIndex photoItems s).currentIndex = some startIndex := by
  exact ⟨rfl, rfl⟩

/-- Claim C1, counterexample: opening the lightbox with start index 5 over a
two-item gallery leaves the lightbox open with the cursor stored as 5,
outside `[0, 2)` — `openLightbox` performs no bounds check, so the claimed
invariant fails for the open operation. -/
theorem open_out_of_bounds_cursor :
    badOpenState.visible = true ∧ badOpenState.photos = some [itemA, itemB] ∧
      badOpenState.currentIndex = some 5 ∧ cursorInBounds badOpenState = false :=
  ⟨rfl, rfl, rfl, by decide⟩

/-- Claim C1 (amended): `next`, `previous` and `goto` preserve the
cursor-bounds invariant `[0, length)` of an open lightbox, and `open`
establishes it when the given start index itself lies in `[0, n)`; an
out-of-bounds start index is stored unchecked. -/
theorem cursor_bounds_preserved (s : LightboxState) :
    (cursorInBounds s = true →
      cursorInBounds (navigateNext s) = true ∧
        cursorInBounds (navigatePrevious s) = true ∧
        (∀ j : Int, cursorInBounds (navigateToIndex j s) = true)) ∧
    (∀ (src caption : String) (startIndex : Int) (photoItems : List Item),
      0 ≤ startIndex → startIndex < (photoItems.length : Int) →
      cursorInBounds (openLightbox src caption startIndex photoItems s) = true) := by
  constructor
  · intro h
    exact ⟨cursorInBounds_navigateNext s h, cursorInBounds_navigatePrevious s h,
      fun j => cursorInBounds_navigateToIndex j s h⟩
  · intro src caption startIndex photoItems h0 hl
    show decide (0 ≤ startIndex ∧ startIndex < (photoItems.length : Int)) = true
    simp only [decide_eq_true_eq]
    exact ⟨h0, hl⟩

/-- Witness for the amended C1: preservation at a concrete open state and
establishment at a concrete in-bounds open call. -/
theorem cursor_bounds_preserved_witness :
    cursorInBounds openStateAB = true ∧
      cursorInBounds (navigateNext openStateAB) = true ∧
      cursorInBounds (openLightbox srcA captionA 1 [itemA, itemB] initialState) = true :=
  ⟨by decide, ((cursor_bounds_preserved openStateAB).1 (by decide)).1,
    (cursor_bounds_preserved initialState).2 srcA captionA 1 [itemA, itemB]
      (by decide) (by decide)⟩

/-- Claim C2, counterexample: index 1 is valid for the two-item list whose
second item has no `img` element, yet `goto(1)` leaves the cursor at 0, so
`getCurrentIndex()` returns 0, not 1. -/
theorem goto_imageless_getCurrentIndex_cex :
    (0 : Int) ≤ 1 ∧ (1 : Int) < (([itemA, itemNoImg] : List Item).length : Int) ∧
      openStateANo.photos = some [itemA, itemNoImg] ∧
      getCurrentIndex (navigateToIndex 1 openStateANo) = 0 ∧
      getCurrentIndex (navigateToIndex 1 openStateANo) ≠ 1 := by
  refine ⟨by decide, by decide, rfl, ?_, ?_⟩ <;> decide

/-- Claim C2 (amended): for every item list and valid index `i` in `[0, n)`
whose item contains an image element, `goto(i)` followed by
`getCurrentIndex()` returns `i`. -/
theorem goto_then_getCurrentIndex (s : LightboxState) (photos : List Item) (i : Int)
    (hp : s.photos = some photos) (h0 : 0 ≤ i) (hl : i < (photos.length : Int))
    (himg : ((photos.getD i.toNat defaultItem).img).isSome = true) :
    getCurrentIndex (navigateToIndex i s) = i := by
  unfold getCurrentIndex
  rw [navigateToIndex_sets_cursor i s photos hp h0 hl himg]
  rfl

/-- Witness for the amended C2 at index 1 of a two-item gallery. -/
theorem goto_then_getCurrentIndex_witness :
    openStateAB.photos = some [itemA, itemB] ∧
      getCurrentIndex (navigateToIndex 1 openStateAB) = 1 :=
  ⟨rfl, goto_then_getCurrentIndex openStateAB [itemA, itemB] 1 rfl
    (by decide) (by decide) (by decide)⟩

/-- Claim C3, counterexample: over the open two-item gallery whose second
item has no `img` element, `next()` from index 0 leaves the cursor at 0
instead of advancing it to 1. -/
theorem next_imageless_no_advance :
    openStateANo.currentIndex = some 0 ∧
      openStateANo.photos = some [itemA, itemNoImg] ∧
      (navigateNext openStateANo).currentIndex = some 0 ∧
      (navigateNext openStateANo).currentIndex ≠ some 1 := by
  refine ⟨rfl, rfl, ?_, ?_⟩ <;> decide

/-- Claim C3 (amended): over an open lightbox with `n ≥ 1` items and cursor
`i` in `[0, n)`, `next()` advances the cursor by one with wraparound
`n - 1 → 0` and `previous()` retreats by one with wraparound `0 → n - 1`,
provided the destination item contains an image element (otherwise the
cursor is left unchanged by the image guard of `navigateToIndex`). -/
theorem next_previous_wraparound (s : LightboxState) (photos : List Item) (i : Int)
    (hp : s.photos = some photos) (hci : s.currentIndex = some i)
    (h0 : 0 ≤ i) (hl : i < (photos.length : Int)) :
    (∀ j : Int, j = (if i < (photos.length : Int) - 1 then i + 1 else 0) →
      ((photos.getD j.toNat defaultItem).img).isSome = true →
      (navigateNext s).currentIndex = some j) ∧
    (∀ j : Int, j = (if 0 < i then i - 1 else (photos.length : Int) - 1) →
      ((photos.getD j.toNat defaultItem).img).isSome = true →
      (navigatePrevious s).currentIndex = some j) := by
  have hlen : photos.length ≠ 0 := by omega
  constructor
  · intro j hj himg
    rw [navigateNext_delegates s photos i hp hci hlen, ← hj]
    refine navigateToIndex_sets_cursor j s photos hp ?_ ?_ himg
    · rw [hj]; split_ifs <;> omega
    · rw [hj]; split_ifs <;> omega
  · intro j hj himg
    rw [navigatePrevious_delegates s photos i hp hci hlen, ← hj]
    refine navigateToIndex_sets_cursor j s photos hp ?_ ?_ himg
    · rw [hj]; split_ifs <;> omega
    · rw [hj]; split_ifs <;> omega

/-- Witness for the amended C3: from cursor 0 over two items, `next()`
advances to 1 and `previous()` wraps around to `n - 1 = 1`. -/
theorem next_previous_wraparound_witness :
    (navigateNext openStateAB).currentIndex = some 1 ∧
      (navigatePrevious openStateAB).currentIndex = some 1 :=
  ⟨(next_previous_wraparound openStateAB [itemA, itemB] 0 rfl rfl
      (by decide) (by decide)).1 1 (by decide) (by decide),
    (next_previous_wraparound openStateAB [itemA, itemB] 0 rfl rfl
      (by decide) (by decide)).2 1 (by decide) (by decide)⟩

/-- Claim C4 (confirmed): `goto(index)` with `index < 0` or `index ≥ n` is
a silent no-op: the whole state — cursor, displayed image and caption —
is unchanged, and the embedded function is total, surfacing no error. -/
theorem goto_out_of_bounds_noop (s : LightboxState) (photos : List Item) (j : Int)
    (hp : s.photos = some photos) (hb : j < 0 ∨ (photos.length : Int) ≤ j) :
    navigateToIndex j s = s ∧ getCurrentIndex (navigateToIndex j s) = getCurrentIndex s := by
  have h := navigateToIndex_out_of_bounds j s photos hp hb
  exact ⟨h, by rw [h]⟩

/-- Witness for C4 at the out-of-bounds index 7 over two items. -/
theorem goto_out_of_bounds_noop_witness :
    navigateToIndex 7 openStateAB = openStateAB ∧
      getCurrentIndex (navigateToIndex 7 openStateAB) = getCurrentIndex openStateAB :=
  goto_out_of_bounds_noop openStateAB [itemA, itemB] 7 rfl (by decide)

/-- Claim C5, counterexample: a touch gesture starting at `x = 0` with end
point `(60, 110)` from start `(0, 100)` has `deltaX = 60 > 50` dominating
`deltaY = 10`, so the claim requires `previous()` to fire, but the release
handler's falsy-start guard discards the gesture and no navigation fires. -/
theorem swipe_zero_start_cex :
    (|(60 : Int) - 0| > 50 ∧ |(60 : Int) - 0| > |(110 : Int) - 100| ∧
        (0 : Int) < (60 : Int) - 0) ∧
      touchendNav 0 100 60 110 = none ∧
      touchendNav 0 100 60 110 ≠ some NavDirection.previous := by
  refine ⟨by decide, ?_, ?_⟩ <;> decide

/-- Claim C5 (amended): for every completed touch gesture whose recorded
start coordinates are both nonzero, with `deltaX = currentX - startX` and
`deltaY = currentY - startY`: if `|deltaX| > 50` and `|deltaX| > |deltaY|`
exactly one navigation fires — `previous` when `deltaX > 0`, `next` when
`deltaX < 0` — and otherwise no navigation fires. -/
theorem swipe_navigation (startX startY currentX currentY : Int)
    (hx : startX ≠ 0) (hy : startY ≠ 0) :
    (|currentX - startX| > 50 ∧ |currentX - startX| > |currentY - startY| →
      touchendNav startX startY currentX currentY =
        some (if 0 < currentX - startX then NavDirection.previous else NavDirection.next)) ∧
    (¬(|currentX - startX| > 50 ∧ |currentX - startX| > |currentY - startY|) →
      touchendNav startX startY currentX currentY = none) := by
  unfold touchendNav
  rw [if_neg (show ¬(startX = 0 ∨ startY = 0) from fun h => h.elim hx hy)]
  constructor
  · intro h
    rw [if_pos (show |currentY - startY| < |currentX - startX| ∧
        50 < |currentX - startX| from ⟨h.2, h.1⟩)]
    exact (apply_ite some _ _ _).symm
  · intro h
    rw [if_neg (show ¬(|currentY - startY| < |currentX - startX| ∧
        50 < |currentX - startX|) from fun hc => h ⟨hc.2, hc.1⟩)]

/-- Witness for the amended C5: a 70-pixel leftward drag from (100, 100)
to (30, 110) triggers exactly the `next` navigation. -/
theorem swipe_navigation_witness :
    (100 : Int) ≠ 0 ∧
      (|(30 : Int) - 100| > 50 ∧ |(30 : Int) - 100| > |(110 : Int) - 100|) ∧
      touchendNav 100 100 30 110 = some NavDirection.next := by
  refine ⟨by decide, by decide, ?_⟩
  have h := (swipe_navigation 100 100 30 110 (by decide) (by decide)).1 (by decide)
  rw [h]
  decide

/-- Claim C6 (confirmed): while the overlay is open, ArrowLeft maps to
`previous`, ArrowRight to `next`, Home to `goto(0)`, End to
`goto(length - 1)` and Escape to `close`; while the overlay is closed, the
keydown handler leaves the state untouched for every key. -/
theorem keydown_routing (s : LightboxState) :
    (s.visible = true →
      handleLightboxKeydown keyArrowLeft s = some (navigatePrevious s) ∧
        handleLightboxKeydown keyArrowRight s = some (navigateNext s) ∧
        handleLightboxKeydown keyHome s = some (navigateToIndex 0 s) ∧
        (∀ photos, s.photos = some photos →
          handleLightboxKeydown keyEnd s =
            some (navigateToIndex ((photos.length : Int) - 1) s)) ∧
        handleLightboxKeydown keyEscape s = some (closeLightbox s)) ∧
    (s.visible = false → ∀ key, handleLightboxKeydown key s = some s) := by
  constructor
  · intro hv
    refine ⟨?_, ?_, ?_, ?_, ?_⟩
    · simp [handleLightboxKeydown, keyArrowLeft, hv]
    · simp [handleLightboxKeydown, keyArrowRight, hv]
    · simp [handleLightboxKeydown, keyHome, hv]
    · intro photos hp
      simp [handleLightboxKeydown, keyEnd, hv, hp]
    · simp [handleLightboxKeydown, keyEscape, hv]
  · intro hv key
    simp [handleLightboxKeydown, hv]

/-- Witness for C6: Escape closes the concrete open state, and ArrowLeft
on the closed initial state changes nothing. -/
theorem keydown_routing_witness :
    openStateAB.visible = true ∧
      handleLightboxKeydown keyEscape openStateAB = some (closeLightbox openStateAB) ∧
      initialState.visible = false ∧
      handleLightboxKeydown keyArrowLeft initialState = some initialState :=
  ⟨rfl, ((keydown_routing openStateAB).1 rfl).2.2.2.2, rfl,
    (keydown_routing initialState).2 rfl keyArrowLeft⟩

/-- Claim C7 (confirmed): calling `close()` while the overlay is already
closed is a no-op — the state (visibility classes, body scroll, listener
and focus bookkeeping) is returned unchanged and the scheduled-hide-timer
count does not grow. -/
theorem close_when_closed_noop (s : LightboxState) (h : s.visible = false) :
    closeLightbox s = s ∧
      (closeLightbox s).hideTimersScheduled = s.hideTimersScheduled := by
  have hc : closeLightbox s = s := by
    simp [closeLightbox, h]
  exact ⟨hc, by rw [hc]⟩

/-- Witness for C7 at the closed initial state. -/
theorem close_when_closed_noop_witness :
    initialState.visible = false ∧ closeLightbox initialState = initialState ∧
      (closeLightbox initialState).hideTimersScheduled =
        initialState.hideTimersScheduled :=
  ⟨rfl, (close_when_closed_noop initialState rfl).1,
    (close_when_closed_noop initialState rfl).2⟩

/-- Claim C8, counterexample: with current index 0 over two items whose
second item contains no `img` element, index 1 lies in the claimed hint set
`(set of i - 1, i + 1, i + 2) ∩ [0, n)` but receives no preload hint. -/
theorem preload_imageless_neighbor_cex :
    (0 : Int) ≤ 1 ∧ (1 : Int) < (([itemA, itemNoImg] : List Item).length : Int) ∧
      preloadIndices 0 [itemA, itemNoImg] = [1] ∧
      preloadHintIndices 0 [itemA, itemNoImg] = [] ∧
      ¬ (1 : Int) ∈ preloadHintIndices 0 [itemA, itemNoImg] := by
  refine ⟨by decide, by decide, ?_, ?_, ?_⟩ <;> decide

/-- Claim C8 (amended): the candidate preload window is exactly the indices
in `(set of i - 1, i + 1, i + 2)` that lie in `[0, n)` — the window clamped
to bounds with the current index excluded — and a preload hint is issued
for exactly those candidates whose item contains an `img` element with a
nonempty effective source. -/
theorem preload_window_exact (currentIndex : Int) (photoItems : List Item) (j : Int) :
    (j ∈ preloadIndices currentIndex photoItems ↔
      (j = currentIndex - 1 ∨ j = currentIndex + 1 ∨ j = currentIndex + 2) ∧
        0 ≤ j ∧ j < (photoItems.length : Int)) ∧
    (j ∈ preloadHintIndices currentIndex photoItems ↔
      j ∈ preloadIndices currentIndex photoItems ∧
        itemHasPreloadableSrc (photoItems.getD j.toNat defaultItem) = true) := by
  constructor
  · unfold preloadIndices
    simp only [List.mem_filter, List.mem_cons, List.not_mem_nil, or_false,
      decide_eq_true_eq]
    omega
  · unfold preloadHintIndices
    simp [List.mem_filter]

/-- Witness for the amended C8: over two image-bearing items with current
index 0, index 1 is in the window and receives a hint. -/
theorem preload_window_exact_witness :
    (1 : Int) ∈ preloadIndices 0 [itemA, itemB] ∧
      (1 : Int) ∈ preloadHintIndices 0 [itemA, itemB] := by
  constructor
  · exact (preload_window_exact 0 [itemA, itemB] 1).1.mpr (by decide)
  · exact (preload_window_exact 0 [itemA, itemB] 1).2.mpr
      ⟨(preload_window_exact 0 [itemA, itemB] 1).1.mpr (by decide), by decide⟩

/-- Claim C9 (confirmed): when the item at an in-bounds target index
contains no `img` element, `goto(index)` returns the state unchanged —
cursor, displayed image and caption included — despite the index being
valid. -/
theorem goto_imageless_noop (s : LightboxState) (photos : List Item) (j : Int)
    (hp : s.photos = some photos) (h0 : 0 ≤ j) (hl : j < (photos.length : Int))
    (hi : (photos.getD j.toNat defaultItem).img = none) :
    navigateToIndex j s = s :=
  navigateToIndex_no_img j s photos hp (by omega) hi

/-- Witness for C9 at the valid imageless index 1. -/
theorem goto_imageless_noop_witness :
    (0 : Int) ≤ 1 ∧ (1 : Int) < (([itemA, itemNoImg] : List Item).length : Int) ∧
      navigateToIndex 1 openStateANo = openStateANo :=
  ⟨by decide, by decide,
    goto_imageless_noop openStateANo [itemA, itemNoImg] 1 rfl (by decide)
      (by decide) rfl⟩

/-- Claim C10 (confirmed): a touch gesture whose recorded start x or start
y coordinate is exactly 0 never triggers navigation on release, whatever
the displacement, because the release handler treats the falsy start
coordinate as an absent touch. -/
theorem touch_zero_start_ignored (startX startY currentX currentY : Int)
    (h : startX = 0 ∨ startY = 0) :
    touchendNav startX startY currentX currentY = none := by
  unfold touchendNav
  rw [if_pos h]

/-- Witness for C10: a 300-pixel rightward drag starting at x = 0 triggers
nothing. -/
theorem touch_zero_start_ignored_witness :
    ((0 : Int) = 0 ∨ (100 : Int) = 0) ∧ touchendNav 0 100 300 100 = none :=
  ⟨Or.inl rfl, touch_zero_start_ignored 0 100 300 100 (Or.inl rfl)⟩

end Lightbox
